import Mathlib

/-!
# Verification of the UDC01 agent-consensus core

Shallow embedding of the consensus engine, agent invoker, response parser
and pipeline orchestrator of the UDC01 repository
(`src/validators.py`, `src/data_flow.py`), together with proofs about the
claims of the specification.

Python strings are modelled as `List Char` (`PyStr`); the embedding keeps
Python's left-to-right, non-overlapping `str.replace`, truthiness of
strings (`""` is falsy) and `dict` lookup semantics (a missing key raises
`KeyError`, modelled by `Except`).  Lower-casing is ASCII (all strings the
code compares case-insensitively are ASCII tags).
-/

set_option autoImplicit false

namespace UDC

/-- Python strings, modelled as lists of characters. -/
abbrev PyStr := List Char

/-- Python runtime errors that the embedded code can raise. -/
inductive PyErr where
  | keyError
  | indexError
  deriving DecidableEq, Repr

/-- Substring test: Python's `needle in hay`. -/
def strContains (hay nee : PyStr) : Bool :=
  match hay with
  | [] => nee.isEmpty
  | c :: t => nee.isPrefixOf (c :: t) || strContains t nee

/-- Recursion worker for `replaceSub`; `fuel ≥ hay.length` makes the
zero-fuel branch unreachable. -/
def replaceSubFuel (nee rep : PyStr) : Nat → PyStr → PyStr
  | _, [] => []
  | 0, hay => hay
  | fuel + 1, c :: t =>
    if nee.isPrefixOf (c :: t) && !nee.isEmpty then
      rep ++ replaceSubFuel nee rep fuel (List.drop (nee.length - 1) t)
    else
      c :: replaceSubFuel nee rep fuel t

/-- Python `str.replace`: non-overlapping, left to right.  (The empty
pattern, on which Python interleaves the replacement, never occurs in the
embedded code; it is mapped to the identity here.) -/
def replaceSub (hay nee rep : PyStr) : PyStr :=
  replaceSubFuel nee rep hay.length hay

/-- Index of the first occurrence of `nee` in `hay`, if any. -/
def firstOcc (hay nee : PyStr) : Option Nat :=
  match hay with
  | [] => if nee.isEmpty then some 0 else none
  | c :: t => if nee.isPrefixOf (c :: t) then some 0 else (firstOcc t nee).map (· + 1)

/-- ASCII lower-casing, Python `str.lower` on the ASCII strings in play. -/
def lowerPy (s : PyStr) : PyStr := s.map Char.toLower

/-- The whitespace characters stripped by Python's `str.strip()`. -/
def isPySpace (c : Char) : Bool :=
  c = ' ' || c = '\t' || c = '\n' || c = '\r' || c = '\x0b' || c = '\x0c'

/-- Python `str.strip()`. -/
def stripPy (s : PyStr) : PyStr :=
  ((s.dropWhile isPySpace).reverse.dropWhile isPySpace).reverse

/-- Python string truthiness of an optional string (`None` and `""` are falsy). -/
def truthyStr (o : Option PyStr) : Bool :=
  match o with
  | some s => !s.isEmpty
  | none => false

/-! ## Response Parser (`validators.get_str_between_tags`, `parse_isvalid`,
`data_flow.parse_output`) -/

/-- `get_str_between_tags` of `validators.py`: the stripped text between the
first case-insensitive occurrence of `start_tag` that is followed by
`end_tag`, or `None`.  (The regex `start(.*?)end` with `IGNORECASE|DOTALL`
matches at the leftmost start-tag occurrence that has an end tag after it;
occurrences of the end tag after a later position are a subset of those
after an earlier one, so searching from the first start-tag occurrence is
equivalent.) -/
def get_str_between_tags (s start_tag end_tag : PyStr) : Option PyStr :=
  let ls := lowerPy s
  match firstOcc ls (lowerPy start_tag) with
  | none => none
  | some p =>
    let contStart := p + start_tag.length
    match firstOcc (ls.drop contStart) (lowerPy end_tag) with
    | none => none
    | some q => some (stripPy ((s.drop contStart).take q))

/-- The parsed result dictionary of `parse_isvalid`: each field is `none`
when the corresponding key is absent from the Python dict. -/
structure Parsed where
  isvalid : Option Bool
  invalid_msg : Option PyStr
  deriving DecidableEq, Repr

/-- `parse_isvalid` of `validators.py`: keys are only set when the tag text
is present and non-empty (Python truthiness). -/
def parse_isvalid (s : PyStr) : Parsed :=
  let iv := get_str_between_tags s "<isvalid>".data "</isvalid>".data
  let im := get_str_between_tags s "<invalid_msg>".data "</invalid_msg>".data
  { isvalid :=
      match iv with
      | some t => if t.isEmpty then none else some (lowerPy t == "true".data)
      | none => none
    invalid_msg :=
      match im with
      | some t => if t.isEmpty then none else some t
      | none => none }

/-- `parse_output` of `data_flow.py`. -/
def parse_output (s : PyStr) : Option PyStr :=
  get_str_between_tags s "<output>".data "</output>".data

/-! ## Placeholder validation (`validators.validate_no_placeholders`) -/

/-- The placeholder tokens checked by `validate_no_placeholders`. -/
def placeholderTokens : List PyStr :=
  [ "\x7b<!--Data-->\x7d".data
  , "\x7b<!--DateTime-->\x7d".data
  , "\x7b<!--RunIndex-->\x7d".data
  , "\x7b<!--Output-->\x7d".data
  , "\x7b<!--PreviousConversionNotes-->\x7d".data ]

/-- `validate_no_placeholders` of `validators.py`: `false` iff some
placeholder token is still present in the text. -/
def validate_no_placeholders (text : PyStr) : Bool :=
  placeholderTokens.all (fun ph => !(strContains text ph))

/-! ## Consensus Engine (`validators.run_2of3_consensus` and helpers)

Each agent of a run is modelled by the deterministic data that reaches the
engine: the `request` text its payload builder produced, and the message
`run_agent` would return for it (`AgentMsg.err e` for a dict carrying an
`"error"` key, `AgentMsg.ok c` for a normalized message with content `c`).
The runners additionally return a trace of the agents that were run and of
the requests that reached the network layer (`run_agent`). -/

/-- What `run_agent` returns for one agent: an error dict or a normalized
message whose `content` is `c`. -/
inductive AgentMsg where
  | err (e : PyStr)
  | ok (content : PyStr)
  deriving DecidableEq, Repr

/-- The deterministic interaction of one consensus agent: its built request
and the message the Agent Invoker would return. -/
structure AgentCall where
  request : PyStr
  message : AgentMsg
  deriving DecidableEq, Repr

/-- Trace events of a consensus run: `run i` when agent `i`'s body starts
executing, `net i req` when `run_agent` is called for agent `i` with
request `req`. -/
inductive Ev where
  | run (i : Nat)
  | net (i : Nat) (req : PyStr)
  deriving DecidableEq, Repr

/-- The agent index of a trace event. -/
def Ev.idx : Ev → Nat
  | .run i => i
  | .net i _ => i

/-- The indices of the `run` events of a trace, in order. -/
def runIndices (tr : List Ev) : List Nat :=
  tr.filterMap (fun e => match e with | .run i => some i | .net _ _ => none)

/-- The outcome dict appended when a request still contains placeholders. -/
def placeholderOutcome : Parsed :=
  { isvalid := some false, invalid_msg := some "Unreplaced placeholders in request".data }

/-- The outcome dict appended when `run_agent` returned an error dict. -/
def agentErrorOutcome (e : PyStr) : Parsed :=
  { isvalid := some false, invalid_msg := some ("Agent error: ".data ++ e) }

/-- Python dict access `r["isvalid"]` on a parsed outcome: `KeyError` when
the key is absent. -/
def dictIsvalid (p : Parsed) : Except PyErr Bool :=
  match p.isvalid with
  | some b => .ok b
  | none => .error .keyError

/-- Python list indexing `l[i]` (`IndexError` out of range). -/
def listAt {α : Type} (l : List α) (i : Nat) : Except PyErr α :=
  match l.get? i with
  | some x => .ok x
  | none => .error .indexError

/-- The agreement check `results[0]["isvalid"] == results[1]["isvalid"]`
(left to right, so a `KeyError` on the first lookup wins). -/
def agreeCheck (results : List Parsed) : Except PyErr Bool :=
  match listAt results 0 with
  | .error e => .error e
  | .ok r0 =>
    match listAt results 1 with
    | .error e => .error e
    | .ok r1 =>
      match dictIsvalid r0 with
      | .error e => .error e
      | .ok b0 =>
        match dictIsvalid r1 with
        | .error e => .error e
        | .ok b1 => .ok (b0 == b1)

/-- The outcome both `validators.py` runners compute for an agent whose
request passed the placeholder check: the `run_agent` error check followed
by `parse_isvalid` on the message content. -/
def netParsed (a : AgentCall) : Parsed :=
  match a.message with
  | .err e => agentErrorOutcome e
  | .ok c => parse_isvalid c

/-- `run_single_agent` of `_run_2of3_parallel`: placeholder check, then the
network call, with error outcomes turned into negative verdicts.  Returns
the outcome together with the trace events of this agent. -/
def run_single_agent (idx : Nat) (a : AgentCall) : Parsed × List Ev :=
  if validate_no_placeholders a.request = false then
    (placeholderOutcome, [Ev.run idx])
  else
    (netParsed a, [Ev.run idx, Ev.net idx a.request])

/-- The loop of `_run_2of3_sequential` of `validators.py`: early-exit check
before the third agent, placeholder check (with `continue`), error check,
and the agreement check after the second agent. -/
def run_2of3_sequential_loop :
    List AgentCall → Nat → List Parsed → List Ev → Except PyErr (List Parsed) × List Ev
  | [], _, results, tr => (.ok results, tr)
  | a :: rest, idx, results, tr =>
    match (if idx == 2 && results.length == 2 then agreeCheck results else .ok false :
        Except PyErr Bool) with
    | .error e => (.error e, tr)
    | .ok true => (.ok results, tr)
    | .ok false =>
      if validate_no_placeholders a.request = false then
        run_2of3_sequential_loop rest (idx + 1) (results ++ [placeholderOutcome]) (tr ++ [Ev.run idx])
      else
        let results2 := results ++ [netParsed a]
        let tr2 := tr ++ [Ev.run idx, Ev.net idx a.request]
        match (if idx == 1 then agreeCheck results2 else .ok false : Except PyErr Bool) with
        | .error e => (.error e, tr2)
        | .ok true => (.ok results2, tr2)
        | .ok false => run_2of3_sequential_loop rest (idx + 1) results2 tr2

/-- `_run_2of3_sequential` of `validators.py`. -/
def run_2of3_sequential (agents : List AgentCall) : Except PyErr (List Parsed) × List Ev :=
  run_2of3_sequential_loop agents 0 [] []

/-- `_run_2of3_parallel` of `validators.py`: run agents 0 and 1, join, and
run agent 2 only on disagreement.  On a deterministic agent interaction the
joined results are those of `run_single_agent`. -/
def run_2of3_parallel (agents : List AgentCall) : Except PyErr (List Parsed) × List Ev :=
  match agents.get? 0, agents.get? 1 with
  | some a0, some a1 =>
    let p0 := run_single_agent 0 a0
    let p1 := run_single_agent 1 a1
    let tr := p0.2 ++ p1.2
    (match dictIsvalid p0.1 with
     | .error e => (.error e, tr)
     | .ok b0 =>
       match dictIsvalid p1.1 with
       | .error e => (.error e, tr)
       | .ok b1 =>
         if b0 == b1 then (.ok [p0.1, p1.1], tr)
         else
           match agents.get? 2 with
           | some a2 =>
             let p2 := run_single_agent 2 a2
             (.ok [p0.1, p1.1, p2.1], tr ++ p2.2)
           | none => (.error .indexError, tr))
  | _, _ => (.error .indexError, [])

/-- `run_2of3_consensus` of `validators.py`: mode dispatch. -/
def run_2of3_consensus (parallel_enabled : Bool) (agents : List AgentCall) :
    Except PyErr (List Parsed) × List Ev :=
  if parallel_enabled then run_2of3_parallel agents else run_2of3_sequential agents

/-! ## The `data_flow.py` consensus helpers used by `process_data`

`_verify_input_data_2of3` and `_validate_output_2of3` of `data_flow.py`
run the same early-exit loop but perform no placeholder validation and no
error check: `run_agent` is always called, and `message["content"]` raises
`KeyError` on an error dict. -/

/-- One data-verification agent of `data_flow.py`: the request template
`config[agent["request_instructions"]]` and the `run_agent` message. -/
structure DfAgent where
  template : PyStr
  message : AgentMsg
  deriving DecidableEq, Repr

/-- The request built by `_verify_input_data_2of3` of `data_flow.py`: only
the data token is substituted (no timestamp substitution in this variant). -/
def df_verification_request (template raw : PyStr) : PyStr :=
  replaceSub template "\x7b<!--Data-->\x7d".data raw

/-- The request built by `_validate_output_2of3` of `data_flow.py`: data,
output and timestamp tokens substituted. -/
def df_validation_request (template raw output now : PyStr) : PyStr :=
  replaceSub
    (replaceSub (replaceSub template "\x7b<!--Data-->\x7d".data raw)
      "\x7b<!--Output-->\x7d".data output)
    "\x7b<!--DateTime-->\x7d".data now

/-- The shared loop of the two `data_flow.py` consensus helpers, over built
requests: every agent reaches `run_agent`, and `parse_isvalid(message["content"])`
raises `KeyError` on an error dict. -/
def df_2of3_loop :
    List (PyStr × AgentMsg) → Nat → List Parsed → List Ev → Except PyErr (List Parsed) × List Ev
  | [], _, results, tr => (.ok results, tr)
  | a :: rest, idx, results, tr =>
    match (if idx == 2 && results.length == 2 then agreeCheck results else .ok false :
        Except PyErr Bool) with
    | .error e => (.error e, tr)
    | .ok true => (.ok results, tr)
    | .ok false =>
      let tr2 := tr ++ [Ev.run idx, Ev.net idx a.1]
      match a.2 with
      | .err _ => (.error .keyError, tr2)
      | .ok c =>
        let results2 := results ++ [parse_isvalid c]
        match (if idx == 1 then agreeCheck results2 else .ok false : Except PyErr Bool) with
        | .error e => (.error e, tr2)
        | .ok true => (.ok results2, tr2)
        | .ok false => df_2of3_loop rest (idx + 1) results2 tr2

/-- `_verify_input_data_2of3` of `data_flow.py`. -/
def df_verify_input_data_2of3 (raw : PyStr) (agents : List DfAgent) :
    Except PyErr (List Parsed) × List Ev :=
  df_2of3_loop (agents.map (fun a => (df_verification_request a.template raw, a.message))) 0 [] []

/-- `_validate_output_2of3` of `data_flow.py`. -/
def df_validate_output_2of3 (raw output now : PyStr) (agents : List DfAgent) :
    Except PyErr (List Parsed) × List Ev :=
  df_2of3_loop
    (agents.map (fun a => (df_validation_request a.template raw output now, a.message))) 0 [] []

/-! ## Pipeline Orchestrator (`data_flow.process_data`)

`process_data` is embedded with its collaborators as parameters: the
loaded raw text (`none` when `load_file` failed), the pre-verification
consensus as a function of the raw text, the conversion agent's message
per retry index, and the validation consensus per retry index and output.
The returned trace records the conversion attempts, validation runs and
the save of the output file. -/

/-- Pipeline trace events: a conversion attempt with its run index, a
validation consensus run for that attempt, the save of the output. -/
inductive PEv where
  | convert (i : Nat)
  | validate (i : Nat)
  | save
  deriving DecidableEq, Repr

/-- The terminal result dicts of `process_data`, keyed by their `status`
field (plus the load-error dict, which has no `status`). -/
inductive PipeResult where
  | loadError
  | preVerificationFailed (pre : List Parsed)
  | conversionError (response : AgentMsg)
  | success (validation : List Parsed)
  | failed (validation : List Parsed) (retries : Nat)
  deriving DecidableEq, Repr

/-- `sum(1 for r in results if r.get("isvalid"))`: `r.get` yields a falsy
value both for a missing key and for `False`. -/
def passCount (rs : List Parsed) : Nat :=
  (rs.filter (fun r => r.isvalid == some true)).length

/-- The 2-of-3 pass/fail derived from a result list (`success_count >= 2`). -/
def derivedPass (rs : List Parsed) : Bool :=
  decide (2 ≤ passCount rs)

/-- `conv_response.get("content")` followed by
`parse_output(conversion_content) if conversion_content else None`:
an error dict has no content, and empty content is falsy. -/
def conversionOutput (resp : AgentMsg) : Option PyStr :=
  match resp with
  | .err _ => none
  | .ok c => if c.isEmpty then none else parse_output c

/-- The `while retry_count < max_retries` loop of `process_data`, with
`fuel = max_retries - retry_count`.  `vals` is the current value of
`validation_results` (what the wrap-up summary reports). -/
def convLoop (conv : Nat → AgentMsg) (val : Nat → PyStr → Except PyErr (List Parsed)) :
    Nat → Nat → List Parsed → List PEv → Except PyErr PipeResult × List PEv
  | 0, retry_count, vals, tr => (.ok (.failed vals retry_count), tr)
  | fuel + 1, retry_count, _vals, tr =>
    let resp := conv retry_count
    let tr1 := tr ++ [PEv.convert retry_count]
    match conversionOutput resp with
    | none => (.ok (.conversionError resp), tr1)
    | some output =>
      match val retry_count output with
      | .error e => (.error e, tr1 ++ [PEv.validate retry_count])
      | .ok vres =>
        let tr2 := tr1 ++ [PEv.validate retry_count]
        if 2 ≤ passCount vres then (.ok (.success vres), tr2 ++ [PEv.save])
        else convLoop conv val fuel (retry_count + 1) vres tr2

/-- `process_data` of `data_flow.py`: load, pre-verify (2-of-3 rule),
then the conversion/validation retry loop bounded by `max_retries`. -/
def process_data (rawData : Option PyStr)
    (pre : PyStr → Except PyErr (List Parsed))
    (conv : Nat → AgentMsg)
    (val : Nat → PyStr → Except PyErr (List Parsed))
    (max_retries : Nat) : Except PyErr PipeResult × List PEv :=
  match rawData with
  | none => (.ok .loadError, [])
  | some raw =>
    match pre raw with
    | .error e => (.error e, [])
    | .ok preres =>
      if passCount preres < 2 then (.ok (.preVerificationFailed preres), [])
      else convLoop conv val max_retries 0 [] []

/-! ## Agent Invoker (`validators.run_agent`)

The retry loop of `run_agent` is embedded over an attempt oracle: attempt
`i` either raises a `requests.RequestException` with message `e`
(`CallAttempt.failRq e`) or produces a normalized, parsed response content
(`CallAttempt.respond c`). -/

/-- The result of one network attempt inside `run_agent`. -/
inductive CallAttempt where
  | failRq (e : PyStr)
  | respond (content : PyStr)
  deriving DecidableEq, Repr

/-- What `run_agent` returns: a normalized message with
`_metadata["retry_count"]` and no error flag, a terminal error dict with
`_metadata = (failed, retry_count)`, or the immediate unknown-provider
error dict (which carries `failed` but no retry count). -/
inductive RunAgentResult where
  | message (content : PyStr) (retry_count : Nat)
  | errorResult (error : Option PyStr) (failed : Bool) (retry_count : Nat)
  | configError (provider : PyStr)
  deriving DecidableEq, Repr

/-- The `for attempt in range(max_retries)` loop of `run_agent`, with
`fuel = max_retries - attempt`; `lastErr` is the `last_error` variable
(`None` before the first failure, stringified in the terminal dict). -/
def runAgentAttempts (att : Nat → CallAttempt) (max_retries : Nat) :
    Nat → Nat → Option PyStr → RunAgentResult
  | 0, _, lastErr => .errorResult lastErr true max_retries
  | fuel + 1, attempt, lastErr =>
    match att attempt with
    | .respond c => .message c attempt
    | .failRq e =>
      let _ := lastErr
      runAgentAttempts att max_retries fuel (attempt + 1) (some e)

/-- `run_agent` of `validators.py`: unknown provider fails immediately
with no retry; otherwise the bounded retry loop runs. -/
def run_agent (providerKnown : Bool) (provider : PyStr) (max_retries : Nat)
    (att : Nat → CallAttempt) : RunAgentResult :=
  if providerKnown = false then .configError provider
  else runAgentAttempts att max_retries max_retries 0 none

/-! ## Wire formats (`validators.format_request_for_provider`,
`build_provider_url`) -/

/-- Temperatures pass through the request builders untouched; they are
modelled as rationals. -/
abbrev Temp := ℚ

/-- A `{role, content}` chat message. -/
structure ChatMsg where
  role : PyStr
  content : PyStr
  deriving DecidableEq, Repr

/-- The three wire bodies `format_request_for_provider` can build.  In
`googleBody` each content entry models `{role, parts: [{text}]}` with its
single text part. -/
inductive WireBody where
  | anthropicBody (model : PyStr) (max_tokens : Nat) (temperature : Temp)
      (system : PyStr) (messages : List ChatMsg)
  | googleBody (contents : List ChatMsg) (temperature : Temp) (maxOutputTokens : Nat)
  | openaiBody (model : PyStr) (temperature : Temp) (stream : Bool) (messages : List ChatMsg)
  deriving DecidableEq, Repr

/-- The part of `model.split("/")[-1]` after the last slash. -/
def lastSegment (m : PyStr) : PyStr :=
  match m with
  | [] => []
  | c :: t => if c = '/' then lastSegment t else
      match firstOcc t "/".data with
      | none => c :: t
      | some _ => lastSegment t

/-- `model.split("/")[-1] if "/" in model else model`. -/
def model_name_of (model : PyStr) : PyStr :=
  if strContains model "/".data then lastSegment model else model

/-- `format_request_for_provider` of `validators.py`, dispatching on the
provider's `request_format` string (default `"openai"` shape). -/
def format_request_for_provider (request_format : PyStr) (model : PyStr)
    (temperature : Temp) (messages : List ChatMsg) : WireBody :=
  let model_name := model_name_of model
  if request_format = "anthropic".data then
    let system_msg := ((messages.find? (fun m => m.role == "system".data)).map
      (fun m => m.content)).getD []
    .anthropicBody model_name 10000 temperature system_msg
      (messages.filter (fun m => !(m.role == "system".data)))
  else if request_format = "google".data then
    .googleBody
      (messages.map (fun m =>
        { role := if m.role == "user".data || m.role == "system".data
                  then "user".data else "model".data
          content := m.content }))
      temperature 8192
  else
    .openaiBody model_name temperature false messages

/-- The `{model}` substitution step of `build_provider_url`. -/
def substituted_endpoint (endpoint model : PyStr) : PyStr :=
  if strContains endpoint "\x7bmodel\x7d".data then
    replaceSub endpoint "\x7bmodel\x7d".data (model_name_of model)
  else endpoint

/-- `build_provider_url` of `validators.py`: model substitution, then one
trailing slash stripped from the base and one leading slash ensured on the
endpoint. -/
def build_provider_url (base_url endpoint model : PyStr) : PyStr :=
  let ep := substituted_endpoint endpoint model
  let base1 := if base_url.getLast? = some '/' then base_url.dropLast else base_url
  let ep2 := if ep.head? = some '/' then ep else '/' :: ep
  base1 ++ ep2

/-! ## Claim-side definitions (formalizing the spec's words, for comparison) -/

/-- Spec-side (claim C10): the base with its trailing slashes removed. -/
def dropTrailingSlashes (s : PyStr) : PyStr :=
  (s.reverse.dropWhile (fun c => c = '/')).reverse

/-- Spec-side (claim C10): the endpoint with its leading slashes removed. -/
def dropLeadingSlashes (s : PyStr) : PyStr :=
  s.dropWhile (fun c => c = '/')

/-- Spec-side (claim C10): base and endpoint joined with exactly one `/`
at the boundary. -/
def claimedJoin (base ep : PyStr) : PyStr :=
  dropTrailingSlashes base ++ '/' :: dropLeadingSlashes ep

/-- Spec-side (claim C2): the majority verdict of three booleans. -/
def majority3 (b0 b1 b2 : Bool) : Bool :=
  (b0 && b1) || (b0 && b2) || (b1 && b2)

/-- The derived pass/fail of a consensus run's result, `none` when the run
raised. -/
def passOfExcept (r : Except PyErr (List Parsed)) : Option Bool :=
  match r with
  | .ok rs => some (derivedPass rs)
  | .error _ => none

/-- The shared decision tree of both 3-agent consensus runners: outcomes
of agents 0 and 1, the agreement check, and conditionally agent 2. -/
def consensus3_spec (a0 a1 a2 : AgentCall) : Except PyErr (List Parsed) × List Ev :=
  let p0 := run_single_agent 0 a0
  let p1 := run_single_agent 1 a1
  let tr := p0.2 ++ p1.2
  match dictIsvalid p0.1 with
  | .error e => (.error e, tr)
  | .ok b0 =>
    match dictIsvalid p1.1 with
    | .error e => (.error e, tr)
    | .ok b1 =>
      if b0 == b1 then (.ok [p0.1, p1.1], tr)
      else
        let p2 := run_single_agent 2 a2
        (.ok [p0.1, p1.1, p2.1], tr ++ p2.2)

/-- Claim-side: whether a pipeline trace event is a conversion attempt. -/
def isConvertEv : PEv → Bool
  | .convert _ => true
  | _ => false

/-- Claim-side: the number of conversion attempts recorded in a trace. -/
def convertCount (tr : List PEv) : Nat :=
  (tr.filter isConvertEv).length

/-- A pre-verification oracle returning two positive verdicts. -/
def wPreOk : PyStr → Except PyErr (List Parsed) :=
  fun _ => .ok [{ isvalid := some true, invalid_msg := none },
                { isvalid := some true, invalid_msg := none }]

/-- A conversion oracle always answering with a tagged output section. -/
def wConvOut : Nat → AgentMsg := fun _ => .ok "<output>x</output>".data

/-- A conversion oracle always answering with an error dict. -/
def wConvErr : Nat → AgentMsg := fun _ => .err "down".data

/-- A validation oracle on which every attempt fails (no verdicts). -/
def wValFail : Nat → PyStr → Except PyErr (List Parsed) := fun _ _ => .ok []

/-- A data-verification agent whose template still contains the output
placeholder after the data substitution (the `data_flow.py` verification
builder substitutes only the data token). -/
def dfPlaceholderAgent : DfAgent :=
  { template := "convert \x7b<!--Data-->\x7d into \x7b<!--Output-->\x7d".data
    message := .ok "<isvalid>true</isvalid>".data }

/-- A data-verification agent answering with a positive verdict. -/
def dfTrueAgent : DfAgent :=
  { template := "check \x7b<!--Data-->\x7d".data
    message := .ok "<isvalid>true</isvalid>".data }

/-- A data-verification agent whose invocation returns an error dict. -/
def dfErrAgent : DfAgent :=
  { template := "check \x7b<!--Data-->\x7d".data
    message := .err "boom".data }

/-! ## Sanity checks on the parser embedding -/

example : get_str_between_tags "a<isvalid> True </isvalid>b".data "<isvalid>".data "</isvalid>".data
    = some "True".data := by decide

example : parse_isvalid "x<ISVALID>true</ISVALID>y".data
    = { isvalid := some true, invalid_msg := none } := by decide

example : parse_isvalid "no tags here".data = { isvalid := none, invalid_msg := none } := by decide

example : validate_no_placeholders "abc \x7b<!--Data-->\x7d def".data = false := by decide

example : validate_no_placeholders "abc def".data = true := by decide

example : replaceSub "a\x7b<!--Data-->\x7db".data "\x7b<!--Data-->\x7d".data "XY".data
    = "aXYb".data := by decide

/-! ## The sequential loop, step by step -/

theorem seq_loop_step0 (a : AgentCall) (rest : List AgentCall) (results : List Parsed)
    (tr : List Ev) :
    run_2of3_sequential_loop (a :: rest) 0 results tr =
      run_2of3_sequential_loop rest 1 (results ++ [(run_single_agent 0 a).1])
        (tr ++ (run_single_agent 0 a).2) := by
  cases h : validate_no_placeholders a.request <;>
    simp [run_2of3_sequential_loop, run_single_agent, h]

theorem seq_loop_step1_ph (a : AgentCall) (rest : List AgentCall) (o0 : Parsed) (t0 : List Ev)
    (h : validate_no_placeholders a.request = false) :
    run_2of3_sequential_loop (a :: rest) 1 [o0] t0 =
      run_2of3_sequential_loop rest 2 [o0, placeholderOutcome] (t0 ++ [Ev.run 1]) := by
  simp [run_2of3_sequential_loop, h]

theorem seq_loop_step1_np (a : AgentCall) (rest : List AgentCall) (o0 : Parsed) (t0 : List Ev)
    (h : validate_no_placeholders a.request = true) :
    run_2of3_sequential_loop (a :: rest) 1 [o0] t0 =
      match agreeCheck [o0, netParsed a] with
      | .error e => (.error e, t0 ++ [Ev.run 1, Ev.net 1 a.request])
      | .ok true => (.ok [o0, netParsed a], t0 ++ [Ev.run 1, Ev.net 1 a.request])
      | .ok false =>
          run_2of3_sequential_loop rest 2 [o0, netParsed a]
            (t0 ++ [Ev.run 1, Ev.net 1 a.request]) := by
  cases hc : agreeCheck [o0, netParsed a] with
  | error e => simp [run_2of3_sequential_loop, h, hc]
  | ok b => cases b <;> simp [run_2of3_sequential_loop, h, hc]

theorem seq_loop_step2 (a : AgentCall) (o0 o1 : Parsed) (t : List Ev) :
    run_2of3_sequential_loop [a] 2 [o0, o1] t =
      match agreeCheck [o0, o1] with
      | .error e => (.error e, t)
      | .ok true => (.ok [o0, o1], t)
      | .ok false =>
          (.ok [o0, o1, (run_single_agent 2 a).1], t ++ (run_single_agent 2 a).2) := by
  cases hc : agreeCheck [o0, o1] with
  | error e => simp [run_2of3_sequential_loop, hc]
  | ok b =>
    cases b
    · cases h : validate_no_placeholders a.request <;>
        simp [run_2of3_sequential_loop, run_single_agent, hc, h]
    · simp [run_2of3_sequential_loop, hc]

theorem run_single_agent_ph (i : Nat) (a : AgentCall)
    (h : validate_no_placeholders a.request = false) :
    run_single_agent i a = (placeholderOutcome, [Ev.run i]) := by
  simp [run_single_agent, h]

theorem run_single_agent_np (i : Nat) (a : AgentCall)
    (h : validate_no_placeholders a.request = true) :
    run_single_agent i a = (netParsed a, [Ev.run i, Ev.net i a.request]) := by
  simp [run_single_agent, h]

theorem agreeCheck_pair (r0 r1 : Parsed) (l : List Parsed) :
    agreeCheck (r0 :: r1 :: l) =
      match dictIsvalid r0 with
      | .error e => .error e
      | .ok b0 =>
        match dictIsvalid r1 with
        | .error e => .error e
        | .ok b1 => .ok (b0 == b1) := rfl

theorem dictIsvalid_placeholder : dictIsvalid placeholderOutcome = .ok false := rfl

theorem seq3_spec (a0 a1 a2 : AgentCall) :
    run_2of3_sequential [a0, a1, a2] = consensus3_spec a0 a1 a2 := by
  simp only [run_2of3_sequential, consensus3_spec]
  rw [seq_loop_step0]
  simp only [List.nil_append]
  cases h1 : validate_no_placeholders a1.request with
  | false =>
    rw [run_single_agent_ph 1 a1 h1, seq_loop_step1_ph _ _ _ _ h1, seq_loop_step2,
      agreeCheck_pair]
    cases hd0 : dictIsvalid (run_single_agent 0 a0).1 with
    | error e => simp [dictIsvalid_placeholder, hd0]
    | ok b0 => cases b0 <;> simp [dictIsvalid_placeholder, hd0]
  | true =>
    rw [run_single_agent_np 1 a1 h1, seq_loop_step1_np _ _ _ _ h1, agreeCheck_pair]
    cases hd0 : dictIsvalid (run_single_agent 0 a0).1 with
    | error e => simp [hd0]
    | ok b0 =>
      cases hd1 : dictIsvalid (netParsed a1) with
      | error e => simp [hd0, hd1]
      | ok b1 =>
        cases hb : b0 == b1 <;>
          simp [hd0, hd1, hb, seq_loop_step2, agreeCheck_pair]

theorem par3_spec (a0 a1 a2 : AgentCall) :
    run_2of3_parallel [a0, a1, a2] = consensus3_spec a0 a1 a2 := rfl

/-! ## Trace facts about single agents -/

theorem run_single_agent_trace_idx (i : Nat) (a : AgentCall) (e : Ev)
    (he : e ∈ (run_single_agent i a).2) : Ev.idx e = i := by
  cases hv : validate_no_placeholders a.request
  · simp [run_single_agent, hv] at he
    simp [he, Ev.idx]
  · simp [run_single_agent, hv] at he
    rcases he with rfl | rfl <;> simp [Ev.idx]

theorem run_single_agent_runIndices (i : Nat) (a : AgentCall) :
    runIndices (run_single_agent i a).2 = [i] := by
  cases hv : validate_no_placeholders a.request <;>
    simp [run_single_agent, hv, runIndices]

theorem net_mem_rsa {i j : Nat} {a : AgentCall} {q : PyStr}
    (h : Ev.net i q ∈ (run_single_agent j a).2) :
    i = j ∧ validate_no_placeholders a.request = true := by
  cases hv : validate_no_placeholders a.request
  · simp [run_single_agent, hv] at h
  · simp [run_single_agent, hv] at h
    exact ⟨h.1, rfl⟩

theorem dictIsvalid_error {p : Parsed} {e : PyErr} (h : dictIsvalid p = .error e) :
    e = .keyError := by
  cases hp : p.isvalid <;> simp [dictIsvalid, hp] at h
  exact h.symm

/-- The three possible shapes of a 3-agent consensus run: early-exit with
two outcomes, tie-break with three outcomes, or a `KeyError` raised during
the agreement check. -/
theorem consensus3_cases (a0 a1 a2 : AgentCall) :
    consensus3_spec a0 a1 a2
        = (.ok [(run_single_agent 0 a0).1, (run_single_agent 1 a1).1],
           (run_single_agent 0 a0).2 ++ (run_single_agent 1 a1).2)
    ∨ consensus3_spec a0 a1 a2
        = (.ok [(run_single_agent 0 a0).1, (run_single_agent 1 a1).1,
                (run_single_agent 2 a2).1],
           (run_single_agent 0 a0).2 ++ (run_single_agent 1 a1).2
             ++ (run_single_agent 2 a2).2)
    ∨ consensus3_spec a0 a1 a2
        = (.error .keyError,
           (run_single_agent 0 a0).2 ++ (run_single_agent 1 a1).2) := by
  simp only [consensus3_spec]
  rcases hd0 : dictIsvalid (run_single_agent 0 a0).1 with e | b0
  · right; right
    simp [hd0, dictIsvalid_error hd0]
  · rcases hd1 : dictIsvalid (run_single_agent 1 a1).1 with e | b1
    · right; right
      simp [hd0, hd1, dictIsvalid_error hd1]
    · cases hb : b0 == b1
      · right; left
        simp [hd0, hd1, hb]
      · left
        simp [hd0, hd1, hb]

/-! ## Claim C1 -/

/-- **C1.** For every 3-agent candidate set, if the outcomes of agent 0 and
agent 1 carry equal boolean verdicts, then both the sequential runner
`_run_2of3_sequential` and the parallel runner `_run_2of3_parallel` return
exactly the two outcomes of agents 0 and 1, and no trace event (neither a
body execution nor a network call) with agent index 2 ever occurs. -/
theorem c1_agreement_early_exit (a0 a1 a2 : AgentCall) (b : Bool)
    (h0 : (run_single_agent 0 a0).1.isvalid = some b)
    (h1 : (run_single_agent 1 a1).1.isvalid = some b) :
    (run_2of3_sequential [a0, a1, a2]
        = (.ok [(run_single_agent 0 a0).1, (run_single_agent 1 a1).1],
           (run_single_agent 0 a0).2 ++ (run_single_agent 1 a1).2))
    ∧ (run_2of3_parallel [a0, a1, a2]
        = (.ok [(run_single_agent 0 a0).1, (run_single_agent 1 a1).1],
           (run_single_agent 0 a0).2 ++ (run_single_agent 1 a1).2))
    ∧ (∀ e ∈ (run_2of3_sequential [a0, a1, a2]).2, Ev.idx e ≠ 2)
    ∧ (∀ e ∈ (run_2of3_parallel [a0, a1, a2]).2, Ev.idx e ≠ 2) := by
  have hs := seq3_spec a0 a1 a2
  have hp := par3_spec a0 a1 a2
  have hspec : consensus3_spec a0 a1 a2
      = (.ok [(run_single_agent 0 a0).1, (run_single_agent 1 a1).1],
         (run_single_agent 0 a0).2 ++ (run_single_agent 1 a1).2) := by
    simp [consensus3_spec, dictIsvalid, h0, h1]
  have htr : ∀ e ∈ (run_single_agent 0 a0).2 ++ (run_single_agent 1 a1).2, Ev.idx e ≠ 2 := by
    intro e he
    rcases List.mem_append.1 he with h | h
    · have := run_single_agent_trace_idx 0 a0 e h
      omega
    · have := run_single_agent_trace_idx 1 a1 e h
      omega
  refine ⟨hs.trans hspec, hp.trans hspec, ?_, ?_⟩
  · rw [hs.trans hspec]
    exact htr
  · rw [hp.trans hspec]
    exact htr

/-- Witness for C1 at a concrete input (two `true` verdicts). -/
theorem c1_agreement_early_exit_witness :
    run_2of3_sequential
        [{ request := "payload A".data, message := .ok "<isvalid>true</isvalid>".data },
         { request := "payload B".data, message := .ok "<isvalid> TRUE </isvalid>".data },
         { request := "payload C".data, message := .err "boom".data }]
      = (.ok [(run_single_agent 0
                { request := "payload A".data, message := .ok "<isvalid>true</isvalid>".data }).1,
              (run_single_agent 1
                { request := "payload B".data, message := .ok "<isvalid> TRUE </isvalid>".data }).1],
         (run_single_agent 0
            { request := "payload A".data, message := .ok "<isvalid>true</isvalid>".data }).2
           ++ (run_single_agent 1
            { request := "payload B".data, message := .ok "<isvalid> TRUE </isvalid>".data }).2) :=
  (c1_agreement_early_exit _ _ _ true (by decide) (by decide)).1

/-! ## Claim C2 -/

theorem some_beq_some_true (b : Bool) : ((some b : Option Bool) == some true) = b := by
  cases b <;> rfl

theorem derivedPass3 (o0 o1 o2 : Parsed) (b0 b1 b2 : Bool)
    (h0 : o0.isvalid = some b0) (h1 : o1.isvalid = some b1) (h2 : o2.isvalid = some b2) :
    derivedPass [o0, o1, o2] = majority3 b0 b1 b2 := by
  cases b0 <;> cases b1 <;> cases b2 <;>
    simp [derivedPass, passCount, majority3, List.filter, h0, h1, h2, some_beq_some_true]

/-- **C2.** For every 3-agent candidate set, if the outcomes of agents 0
and 1 carry unequal boolean verdicts, both runners execute all three
agents (the trace's run events are exactly `[0, 1, 2]`), return the three
outcomes positionally, and the derived pass/fail (true-verdict count ≥ 2)
equals the majority of the three verdicts. -/
theorem c2_tiebreak_majority (a0 a1 a2 : AgentCall) (b0 b1 b2 : Bool)
    (h0 : (run_single_agent 0 a0).1.isvalid = some b0)
    (h1 : (run_single_agent 1 a1).1.isvalid = some b1)
    (h2 : (run_single_agent 2 a2).1.isvalid = some b2)
    (hne : b0 ≠ b1) :
    (run_2of3_sequential [a0, a1, a2]
        = (.ok [(run_single_agent 0 a0).1, (run_single_agent 1 a1).1,
                (run_single_agent 2 a2).1],
           (run_single_agent 0 a0).2 ++ (run_single_agent 1 a1).2
             ++ (run_single_agent 2 a2).2))
    ∧ (run_2of3_parallel [a0, a1, a2]
        = (.ok [(run_single_agent 0 a0).1, (run_single_agent 1 a1).1,
                (run_single_agent 2 a2).1],
           (run_single_agent 0 a0).2 ++ (run_single_agent 1 a1).2
             ++ (run_single_agent 2 a2).2))
    ∧ runIndices (run_2of3_sequential [a0, a1, a2]).2 = [0, 1, 2]
    ∧ runIndices (run_2of3_parallel [a0, a1, a2]).2 = [0, 1, 2]
    ∧ derivedPass [(run_single_agent 0 a0).1, (run_single_agent 1 a1).1,
        (run_single_agent 2 a2).1] = majority3 b0 b1 b2 := by
  have hs := seq3_spec a0 a1 a2
  have hp := par3_spec a0 a1 a2
  have hbe : (b0 == b1) = false := beq_eq_false_iff_ne.mpr hne
  have hspec : consensus3_spec a0 a1 a2
      = (.ok [(run_single_agent 0 a0).1, (run_single_agent 1 a1).1,
              (run_single_agent 2 a2).1],
         (run_single_agent 0 a0).2 ++ (run_single_agent 1 a1).2
           ++ (run_single_agent 2 a2).2) := by
    simp [consensus3_spec, dictIsvalid, h0, h1, hbe]
  have happ : ∀ xs ys : List Ev, runIndices (xs ++ ys) = runIndices xs ++ runIndices ys := by
    intro xs ys
    simp [runIndices, List.filterMap_append]
  have hruns : runIndices ((run_single_agent 0 a0).2 ++ (run_single_agent 1 a1).2
      ++ (run_single_agent 2 a2).2) = [0, 1, 2] := by
    rw [happ, happ, run_single_agent_runIndices, run_single_agent_runIndices,
      run_single_agent_runIndices]
    rfl
  refine ⟨hs.trans hspec, hp.trans hspec, ?_, ?_, derivedPass3 _ _ _ _ _ _ h0 h1 h2⟩
  · rw [hs.trans hspec]
    exact hruns
  · rw [hp.trans hspec]
    exact hruns

/-- Witness for C2 at a concrete input (verdicts `true, false, true`). -/
theorem c2_tiebreak_majority_witness :
    derivedPass [(run_single_agent 0
        { request := "payload A".data, message := .ok "<isvalid>true</isvalid>".data }).1,
      (run_single_agent 1
        { request := "payload B".data, message := .ok "<isvalid>false</isvalid>".data }).1,
      (run_single_agent 2
        { request := "payload C".data, message := .ok "<isvalid>true</isvalid>".data }).1]
      = majority3 true false true :=
  (c2_tiebreak_majority _ _ _ true false true (by decide) (by decide) (by decide)
    (by decide)).2.2.2.2

/-! ## Claim C3 -/

/-- **C3.** For any fixed deterministic mapping from the three agents to
requests and responses, the sequential and the parallel runner return the
same result list (same outcomes in the same positions, and even the same
trace), and hence the same derived pass/fail. -/
theorem c3_sequential_parallel_equivalent (a0 a1 a2 : AgentCall) :
    run_2of3_sequential [a0, a1, a2] = run_2of3_parallel [a0, a1, a2]
    ∧ passOfExcept (run_2of3_sequential [a0, a1, a2]).1
        = passOfExcept (run_2of3_parallel [a0, a1, a2]).1 := by
  have h := (seq3_spec a0 a1 a2).trans (par3_spec a0 a1 a2).symm
  exact ⟨h, by rw [h]⟩

/-! ## Claim C4 -/

/-- **C4 counterexample.** In the verification consensus path that the
pipeline orchestrator `process_data` actually uses
(`data_flow._verify_input_data_2of3`), a built request that still contains
the output placeholder token does reach the network layer: a `net` event
for agent 0 with that very request occurs in the trace even though
`validate_no_placeholders` rejects it. -/
theorem c4_orchestrator_placeholder_leak :
    validate_no_placeholders
        (df_verification_request dfPlaceholderAgent.template "RAW".data) = false
    ∧ Ev.net 0 (df_verification_request dfPlaceholderAgent.template "RAW".data)
        ∈ (df_verify_input_data_2of3 "RAW".data
            [dfPlaceholderAgent, dfTrueAgent, dfTrueAgent]).2 := by
  decide

/-- **C4 (amended).** In the `validators.py` consensus runners (both
modes), an agent whose built request still contains a placeholder token is
never sent to the network layer — no `net` event with its index occurs —
and, whenever it is executed, its outcome is the negative verdict with
message "Unreplaced placeholders in request".  (The `data_flow.py`
consensus helpers used by `process_data` perform no placeholder check; see
the counterexample.) -/
theorem c4_placeholder_guard (a0 a1 a2 : AgentCall) (i : Nat) (hi : i < 3)
    (hph : validate_no_placeholders ([a0, a1, a2].get ⟨i, hi⟩).request = false) :
    (∀ q, Ev.net i q ∉ (run_2of3_sequential [a0, a1, a2]).2)
    ∧ (∀ q, Ev.net i q ∉ (run_2of3_parallel [a0, a1, a2]).2)
    ∧ (∀ rs, (run_2of3_sequential [a0, a1, a2]).1 = .ok rs →
        ∀ hj : i < rs.length, rs.get ⟨i, hj⟩ = placeholderOutcome)
    ∧ (∀ rs, (run_2of3_parallel [a0, a1, a2]).1 = .ok rs →
        ∀ hj : i < rs.length, rs.get ⟨i, hj⟩ = placeholderOutcome) := by
  have hs := seq3_spec a0 a1 a2
  have hp := par3_spec a0 a1 a2
  have hnet1 : ∀ q, Ev.net i q ∉ (run_single_agent 0 a0).2 ++ (run_single_agent 1 a1).2 := by
    intro q hmem
    rcases List.mem_append.1 hmem with h | h
    · obtain ⟨rfl, hv⟩ := net_mem_rsa h
      simp only [List.get] at hph
      rw [hph] at hv
      exact Bool.false_ne_true hv
    · obtain ⟨rfl, hv⟩ := net_mem_rsa h
      simp only [List.get] at hph
      rw [hph] at hv
      exact Bool.false_ne_true hv
  have hnet2 : ∀ q, Ev.net i q ∉ (run_single_agent 2 a2).2 := by
    intro q hmem
    obtain ⟨rfl, hv⟩ := net_mem_rsa hmem
    simp only [List.get] at hph
    rw [hph] at hv
    exact Bool.false_ne_true hv
  have hnet : ∀ q, Ev.net i q ∉ (consensus3_spec a0 a1 a2).2 := by
    intro q hmem
    rcases consensus3_cases a0 a1 a2 with hc | hc | hc <;> rw [hc] at hmem
    · exact hnet1 q hmem
    · rcases List.mem_append.1 hmem with h | h
      · exact hnet1 q h
      · exact hnet2 q h
    · exact hnet1 q hmem
  have hposrow : ∀ hj3 : i < ([a0, a1, a2] : List AgentCall).length,
      (run_single_agent i ([a0, a1, a2].get ⟨i, hj3⟩)).1 = placeholderOutcome := by
    intro hj3
    rw [run_single_agent_ph i _ hph]
  have hpos : ∀ rs, (consensus3_spec a0 a1 a2).1 = .ok rs →
      ∀ hj : i < rs.length, rs.get ⟨i, hj⟩ = placeholderOutcome := by
    intro rs hrs hj
    rcases consensus3_cases a0 a1 a2 with hc | hc | hc <;> rw [hc] at hrs
    · cases hrs
      interval_cases i
      · exact hposrow (by simp)
      · exact hposrow (by simp)
      · exact absurd hj (by simp)
    · cases hrs
      interval_cases i
      · exact hposrow (by simp)
      · exact hposrow (by simp)
      · exact hposrow (by simp)
    · cases hrs
  refine ⟨?_, ?_, ?_, ?_⟩
  · rw [hs]
    exact hnet
  · rw [hp]
    exact hnet
  · rw [hs]
    exact hpos
  · rw [hp]
    exact hpos

/-- Witness for C4 (amended) at a concrete input: the placeholder-carrying
request of agent 0 never reaches the network in the sequential runner. -/
theorem c4_placeholder_guard_witness :
    Ev.net 0 "x \x7b<!--Data-->\x7d".data
      ∉ (run_2of3_sequential
          [{ request := "x \x7b<!--Data-->\x7d".data, message := .ok "ok".data },
           { request := "y".data, message := .ok "<isvalid>true</isvalid>".data },
           { request := "z".data, message := .ok "<isvalid>true</isvalid>".data }]).2 :=
  (c4_placeholder_guard _ _ _ 0 (by decide) (by decide)).1 _

/-! ## Claim C5 -/

theorem none_beq_some_true : ((none : Option Bool) == some true) = false := rfl

/-- **C5 counterexample.** In the verification consensus path used by the
orchestrator (`data_flow._verify_input_data_2of3`), a call-level error
outcome does not become a verdict-false outcome with the error message:
`message["content"]` raises `KeyError` and no outcome list is produced at
all. -/
theorem c5_orchestrator_error_raises :
    (df_verify_input_data_2of3 "RAW".data [dfErrAgent, dfTrueAgent, dfTrueAgent]).1
      = .error .keyError := rfl

/-- **C5 (amended).** In the `validators.py` consensus runners, a
call-level error outcome becomes a verdict-false outcome carrying
"Agent error: " plus the error message; a response without an `isvalid`
tag parses to an outcome with no verdict key and hence no negative verdict
or diagnostic message (the derived pass count merely does not count it);
and in the `data_flow.py` consensus helpers used by `process_data`, a
call-level error raises `KeyError` instead of producing an outcome. -/
theorem c5_degenerate_outcomes :
    (∀ (i : Nat) (a : AgentCall) (e : PyStr),
        a.message = .err e → validate_no_placeholders a.request = true →
        (run_single_agent i a).1 = agentErrorOutcome e
          ∧ (run_single_agent i a).1.isvalid = some false
          ∧ (run_single_agent i a).1.invalid_msg = some ("Agent error: ".data ++ e))
    ∧ (∀ s : PyStr,
        get_str_between_tags s "<isvalid>".data "</isvalid>".data = none →
        (parse_isvalid s).isvalid = none ∧ (parse_isvalid s).isvalid ≠ some false)
    ∧ (∀ (p : Parsed) (rs : List Parsed), p.isvalid = none →
        passCount (p :: rs) = passCount rs)
    ∧ (∀ (raw : PyStr) (a : DfAgent) (rest : List DfAgent) (e : PyStr),
        a.message = .err e →
        (df_verify_input_data_2of3 raw (a :: rest)).1 = .error .keyError) := by
  refine ⟨?_, ?_, ?_, ?_⟩
  · intro i a e hm hv
    have h : (run_single_agent i a).1 = agentErrorOutcome e := by
      simp [run_single_agent, hv, netParsed, hm]
    refine ⟨h, ?_, ?_⟩ <;> rw [h] <;> rfl
  · intro s h
    constructor
    · simp [parse_isvalid, h]
    · simp [parse_isvalid, h]
  · intro p rs h
    simp [passCount, List.filter_cons, h, none_beq_some_true]
  · intro raw a rest e hm
    simp [df_verify_input_data_2of3, df_2of3_loop, hm]

/-- Witness for C5 (amended) at a concrete input. -/
theorem c5_degenerate_outcomes_witness :
    (run_single_agent 0 { request := "payload".data, message := .err "boom".data }).1
      = agentErrorOutcome "boom".data :=
  (c5_degenerate_outcomes.1 0 _ "boom".data rfl (by decide)).1

/-! ## Claims C6 and C7: the conversion retry loop -/

theorem convLoop_bounds (conv : Nat → AgentMsg)
    (val : Nat → PyStr → Except PyErr (List Parsed)) :
    ∀ (fuel r : Nat) (vals : List Parsed) (tr : List PEv),
      convertCount (convLoop conv val fuel r vals tr).2 ≤ convertCount tr + fuel
      ∧ (∀ i, PEv.convert i ∈ (convLoop conv val fuel r vals tr).2 →
          PEv.convert i ∈ tr ∨ (r ≤ i ∧ i < r + fuel))
      ∧ (∀ i, PEv.validate i ∈ (convLoop conv val fuel r vals tr).2 →
          PEv.validate i ∈ tr ∨ (r ≤ i ∧ i < r + fuel))
      ∧ (∀ v ρ, (convLoop conv val fuel r vals tr).1 = .ok (.failed v ρ) → ρ ≤ r + fuel) := by
  intro fuel
  induction fuel with
  | zero =>
    intro r vals tr
    refine ⟨by simp [convLoop], ?_, ?_, ?_⟩
    · intro i h
      exact Or.inl (by simpa [convLoop] using h)
    · intro i h
      exact Or.inl (by simpa [convLoop] using h)
    · intro v ρ h
      simp [convLoop] at h
      omega
  | succ fuel ih =>
    intro r vals tr
    cases hco : conversionOutput (conv r) with
    | none =>
      refine ⟨?_, ?_, ?_, ?_⟩
      · simp [convLoop, hco, convertCount, List.filter_append, isConvertEv]
      · intro i h
        simp [convLoop, hco] at h
        rcases h with h | h2
        · exact Or.inl h
        · exact Or.inr ⟨by omega, by omega⟩
      · intro i h
        simp [convLoop, hco] at h
        exact Or.inl h
      · intro v ρ h
        simp [convLoop, hco] at h
    | some output =>
      cases hval : val r output with
      | error e =>
        refine ⟨?_, ?_, ?_, ?_⟩
        · simp [convLoop, hco, hval, convertCount, List.filter_append, isConvertEv]
        · intro i h
          simp [convLoop, hco, hval] at h
          rcases h with h | h2
          · exact Or.inl h
          · exact Or.inr ⟨by omega, by omega⟩
        · intro i h
          simp [convLoop, hco, hval] at h
          rcases h with h | h2
          · exact Or.inl h
          · exact Or.inr ⟨by omega, by omega⟩
        · intro v ρ h
          simp [convLoop, hco, hval] at h
      | ok vres =>
        by_cases hpass : 2 ≤ passCount vres
        · refine ⟨?_, ?_, ?_, ?_⟩
          · simp [convLoop, hco, hval, hpass, convertCount, List.filter_append, isConvertEv]
          · intro i h
            simp [convLoop, hco, hval, hpass] at h
            rcases h with h | h2
            · exact Or.inl h
            · exact Or.inr ⟨by omega, by omega⟩
          · intro i h
            simp [convLoop, hco, hval, hpass] at h
            rcases h with h | h2
            · exact Or.inl h
            · exact Or.inr ⟨by omega, by omega⟩
          · intro v ρ h
            simp [convLoop, hco, hval, hpass] at h
        · have hstep : convLoop conv val (fuel + 1) r vals tr
              = convLoop conv val fuel (r + 1) vres (tr ++ [PEv.convert r, PEv.validate r]) := by
            simp [convLoop, hco, hval, hpass]
          obtain ⟨ihc, ihm, ihv, ihf⟩ := ih (r + 1) vres (tr ++ [PEv.convert r, PEv.validate r])
          have htr2 : convertCount (tr ++ [PEv.convert r, PEv.validate r])
              = convertCount tr + 1 := by
            simp [convertCount, List.filter_append, isConvertEv]
          refine ⟨?_, ?_, ?_, ?_⟩
          · rw [hstep]
            calc convertCount (convLoop conv val fuel (r + 1) vres
                  (tr ++ [PEv.convert r, PEv.validate r])).2
                ≤ convertCount (tr ++ [PEv.convert r, PEv.validate r]) + fuel := ihc
              _ = convertCount tr + (fuel + 1) := by rw [htr2]; omega
          · intro i h
            rw [hstep] at h
            rcases ihm i h with h2 | h2
            · rcases List.mem_append.1 h2 with h3 | h3
              · exact Or.inl h3
              · simp at h3
                exact Or.inr ⟨by omega, by omega⟩
            · exact Or.inr ⟨by omega, by omega⟩
          · intro i h
            rw [hstep] at h
            rcases ihv i h with h2 | h2
            · rcases List.mem_append.1 h2 with h3 | h3
              · exact Or.inl h3
              · simp at h3
                exact Or.inr ⟨by omega, by omega⟩
            · exact Or.inr ⟨by omega, by omega⟩
          · intro v ρ h
            rw [hstep] at h
            have := ihf v ρ h
            omega

/-- **C6.** For every pipeline run, the conversion agent is invoked at
most `max_retries` times, every conversion and validation attempt in the
trace has a retry index below `max_retries`, and the retry count reported
in a terminal `failed` result never exceeds `max_retries`. -/
theorem c6_retry_bound (rawData : Option PyStr) (pre : PyStr → Except PyErr (List Parsed))
    (conv : Nat → AgentMsg) (val : Nat → PyStr → Except PyErr (List Parsed)) (m : Nat) :
    convertCount (process_data rawData pre conv val m).2 ≤ m
    ∧ (∀ i, PEv.convert i ∈ (process_data rawData pre conv val m).2 → i < m)
    ∧ (∀ i, PEv.validate i ∈ (process_data rawData pre conv val m).2 → i < m)
    ∧ (∀ v r, (process_data rawData pre conv val m).1 = .ok (.failed v r) → r ≤ m) := by
  cases rawData with
  | none =>
    refine ⟨by simp [process_data, convertCount], ?_, ?_, ?_⟩
    · intro i h
      simp [process_data] at h
    · intro i h
      simp [process_data] at h
    · intro v r h
      simp [process_data] at h
  | some raw =>
    cases hpre : pre raw with
    | error e =>
      refine ⟨by simp [process_data, hpre, convertCount], ?_, ?_, ?_⟩
      · intro i h
        simp [process_data, hpre] at h
      · intro i h
        simp [process_data, hpre] at h
      · intro v r h
        simp [process_data, hpre] at h
    | ok preres =>
      by_cases hp2 : passCount preres < 2
      · refine ⟨by simp [process_data, hpre, hp2, convertCount], ?_, ?_, ?_⟩
        · intro i h
          simp [process_data, hpre, hp2] at h
        · intro i h
          simp [process_data, hpre, hp2] at h
        · intro v r h
          simp [process_data, hpre, hp2] at h
      · obtain ⟨hc, hm, hv, hf⟩ := convLoop_bounds conv val m 0 [] []
        have hstep : process_data (some raw) pre conv val m = convLoop conv val m 0 [] [] := by
          simp [process_data, hpre, hp2]
        refine ⟨?_, ?_, ?_, ?_⟩
        · rw [hstep]
          simpa [convertCount] using hc
        · intro i h
          rw [hstep] at h
          rcases hm i h with h2 | h2
          · simp at h2
          · omega
        · intro i h
          rw [hstep] at h
          rcases hv i h with h2 | h2
          · simp at h2
          · omega
        · intro v r h
          rw [hstep] at h
          have := hf v r h
          omega

/-- Witness for C6 at a concrete input: a run whose validations all fail
under `max_retries = 2` reports exactly 2 retries, and 2 ≤ 2. -/
theorem c6_retry_bound_witness :
    (process_data (some "d".data) wPreOk wConvOut wValFail 2).1 = .ok (.failed [] 2)
    ∧ (2 : Nat) ≤ 2 :=
  ⟨rfl, (c6_retry_bound (some "d".data) wPreOk wConvOut wValFail 2).2.2.2 [] 2 rfl⟩

/-- **C7.** A conversion response without the output tag pair makes the
retry loop return a `conversion_error` result at once: the trace gains
only the conversion event of the current attempt — no validation for that
response, no further conversion, no retry increment — and, through
`process_data`, a first-attempt missing output tag yields the terminal
conversion-error result with trace `[convert 0]`. -/
theorem c7_conversion_error_immediate (conv : Nat → AgentMsg)
    (val : Nat → PyStr → Except PyErr (List Parsed)) :
    (∀ (fuel r : Nat) (vals : List Parsed) (tr : List PEv),
        conversionOutput (conv r) = none →
        convLoop conv val (fuel + 1) r vals tr
          = (.ok (.conversionError (conv r)), tr ++ [PEv.convert r]))
    ∧ (∀ (raw : PyStr) (pre : PyStr → Except PyErr (List Parsed)) (preres : List Parsed)
        (m : Nat),
        pre raw = .ok preres → 2 ≤ passCount preres → 0 < m →
        conversionOutput (conv 0) = none →
        process_data (some raw) pre conv val m
          = (.ok (.conversionError (conv 0)), [PEv.convert 0])) := by
  constructor
  · intro fuel r vals tr h
    simp [convLoop, h]
  · intro raw pre preres m hpre hpass hm h0
    obtain ⟨fuel, rfl⟩ : ∃ f, m = f + 1 := ⟨m - 1, by omega⟩
    simp [process_data, hpre, Nat.not_lt.mpr hpass, convLoop, h0]

/-- Witness for C7 at a concrete input. -/
theorem c7_conversion_error_immediate_witness :
    process_data (some "d".data) wPreOk wConvErr wValFail 3
      = (.ok (.conversionError (.err "down".data)), [PEv.convert 0]) :=
  (c7_conversion_error_immediate wConvErr wValFail).2 "d".data wPreOk _ 3 rfl
    (by decide) (by decide) rfl

/-! ## Claim C8: the retry loop of `run_agent` -/

theorem runAgentAttempts_all_fail (att : Nat → CallAttempt) (m : Nat) (es : Nat → PyStr) :
    ∀ (fuel attempt : Nat) (lastErr : Option PyStr),
      (∀ i, attempt ≤ i → i < attempt + fuel → att i = .failRq (es i)) →
      0 < fuel →
      runAgentAttempts att m fuel attempt lastErr
        = .errorResult (some (es (attempt + fuel - 1))) true m := by
  intro fuel
  induction fuel with
  | zero =>
    intro attempt lastErr _ hpos
    omega
  | succ fuel ih =>
    intro attempt lastErr hall _
    have hatt : att attempt = .failRq (es attempt) := hall attempt (le_refl _) (by omega)
    have hunfold : runAgentAttempts att m (fuel + 1) attempt lastErr
        = runAgentAttempts att m fuel (attempt + 1) (some (es attempt)) := by
      simp only [runAgentAttempts, hatt]
    by_cases hf : 0 < fuel
    · have hrec := ih (attempt + 1) (some (es attempt))
        (fun i h1 h2 => hall i (by omega) (by omega)) hf
      rw [hunfold, hrec, show attempt + 1 + fuel - 1 = attempt + (fuel + 1) - 1 from by omega]
    · have hfz : fuel = 0 := by omega
      subst hfz
      rw [hunfold]
      simp [runAgentAttempts]

theorem runAgentAttempts_succeed (att : Nat → CallAttempt) (m : Nat) (c : PyStr) :
    ∀ (d fuel attempt : Nat) (lastErr : Option PyStr),
      d < fuel →
      (∀ i, attempt ≤ i → i < attempt + d → ∃ e, att i = .failRq e) →
      att (attempt + d) = .respond c →
      runAgentAttempts att m fuel attempt lastErr = .message c (attempt + d) := by
  intro d
  induction d with
  | zero =>
    intro fuel attempt lastErr hlt _ hresp
    obtain ⟨g, rfl⟩ : ∃ g, fuel = g + 1 := ⟨fuel - 1, by omega⟩
    simp only [runAgentAttempts]
    rw [show attempt + 0 = attempt by omega] at hresp
    rw [hresp]
    simp
  | succ d ih =>
    intro fuel attempt lastErr hlt hfails hresp
    obtain ⟨g, rfl⟩ : ∃ g, fuel = g + 1 := ⟨fuel - 1, by omega⟩
    obtain ⟨e, he⟩ := hfails attempt (le_refl _) (by omega)
    simp only [runAgentAttempts, he]
    have := ih g (attempt + 1) (some e) (by omega)
      (fun i h1 h2 => hfails i (by omega) (by omega))
      (by rw [show attempt + 1 + d = attempt + (d + 1) by omega]; exact hresp)
    rw [this]
    congr 1
    omega

/-- **C8.** When all `max_retries` network attempts fail transiently,
`run_agent` returns the terminal error dict (not a normalized message)
carrying the last attempt's error and metadata `failed = true`,
`retry_count = max_retries`; when attempt `k` (zero-based) succeeds after
`k` failures, it returns the normalized message with
`retry_count = k` and no error flag. -/
theorem c8_invoker_retry (att : Nat → CallAttempt) (p : PyStr) (m : Nat) :
    (∀ es : Nat → PyStr, 0 < m → (∀ i, i < m → att i = .failRq (es i)) →
        run_agent true p m att = .errorResult (some (es (m - 1))) true m)
    ∧ (∀ (k : Nat) (c : PyStr), k < m → att k = .respond c →
        (∀ i, i < k → ∃ e, att i = .failRq e) →
        run_agent true p m att = .message c k) := by
  constructor
  · intro es hm hall
    have h := runAgentAttempts_all_fail att m es m 0 none
      (fun i h1 h2 => hall i (by omega)) hm
    simpa [run_agent] using h
  · intro k c hk hresp hfails
    have h := runAgentAttempts_succeed att m c k m 0 none hk
      (fun i h1 h2 => hfails i (by omega)) (by simpa using hresp)
    simpa [run_agent] using h

/-- Witness for C8: two transient failures then success on the third
attempt with `retry_attempts = 3` gives `retry_count = 2`; and two
failures with `retry_attempts = 2` give the terminal error outcome. -/
theorem c8_invoker_retry_witness :
    run_agent true "prov".data 2 (fun _ => .failRq "err".data)
        = .errorResult (some "err".data) true 2
    ∧ run_agent true "prov".data 3
        (fun i => if i < 2 then .failRq "e".data else .respond "hi".data)
        = .message "hi".data 2 :=
  ⟨(c8_invoker_retry (fun _ => .failRq "err".data) "prov".data 2).1
      (fun _ => "err".data) (by decide) (fun i _ => rfl),
   (c8_invoker_retry (fun i => if i < 2 then .failRq "e".data else .respond "hi".data)
      "prov".data 3).2 2 "hi".data (by decide) (by decide)
      (fun i hi => ⟨"e".data, by simp [hi]⟩)⟩

/-! ## Claim C9: provider wire formats -/

/-- **C9.** For every model, temperature and `[system, user]` message
pair, `format_request_for_provider` builds: for `"openai"` (standard) the
body `{model, temperature, stream := false, messages}` with the messages
unchanged and in order; for `"anthropic"` (alternate-system) the body with
the system content extracted into the `system` field, the fixed
`max_tokens = 10000` cap, and only the user message left in `messages`;
for `"google"` (contents-parts) the role-remapped
`{contents, generationConfig := (temperature, maxOutputTokens = 8192)}`
body. -/
theorem c9_wire_formats (model : PyStr) (t : Temp) (s u : PyStr) :
    format_request_for_provider "openai".data model t
        [{ role := "system".data, content := s }, { role := "user".data, content := u }]
      = .openaiBody (model_name_of model) t false
          [{ role := "system".data, content := s }, { role := "user".data, content := u }]
    ∧ format_request_for_provider "anthropic".data model t
        [{ role := "system".data, content := s }, { role := "user".data, content := u }]
      = .anthropicBody (model_name_of model) 10000 t s [{ role := "user".data, content := u }]
    ∧ format_request_for_provider "google".data model t
        [{ role := "system".data, content := s }, { role := "user".data, content := u }]
      = .googleBody [{ role := "user".data, content := s }, { role := "user".data, content := u }]
          t 8192 := by
  refine ⟨?_, ?_, ?_⟩ <;> rfl

/-! ## Claim C10: provider URL construction -/

/-- **C10 counterexample.** The claim promises exactly one `/` at the
boundary for every configuration, but a base URL already ending in `//`
keeps its double slash: the built URL differs from the claimed join. -/
theorem c10_double_slash_counterexample :
    build_provider_url "a//".data "b".data "m".data = "a//b".data
    ∧ build_provider_url "a//".data "b".data "m".data
        ≠ claimedJoin "a//".data (substituted_endpoint "b".data "m".data) := by
  decide

theorem dropLast_reverse_tail (r : PyStr) : (r.reverse).dropLast = r.tail.reverse := by
  cases r with
  | nil => rfl
  | cons c t => simp [List.reverse_cons, List.dropLast_concat]

theorem base_strip_eq (base : PyStr)
    (hb : base.getLast? = some '/' → base.dropLast.getLast? ≠ some '/') :
    (if base.getLast? = some '/' then base.dropLast else base) = dropTrailingSlashes base := by
  have hrev : base = base.reverse.reverse := (List.reverse_reverse base).symm
  rw [hrev] at hb ⊢
  generalize base.reverse = r at *
  cases r with
  | nil => simp [dropTrailingSlashes]
  | cons c t =>
    by_cases hc : c = '/'
    · subst hc
      have hL : ('/' :: t).reverse.getLast? = some '/' := by
        simp [List.getLast?_reverse]
      rw [if_pos hL]
      have ht : t.reverse.getLast? ≠ some '/' := by
        have := hb hL
        rw [dropLast_reverse_tail] at this
        simpa using this
      have htHead : t.head? ≠ some '/' := by
        rw [List.getLast?_reverse] at ht
        exact ht
      rw [dropLast_reverse_tail]
      simp only [dropTrailingSlashes, List.reverse_reverse, List.tail_cons]
      have hdrop : t.dropWhile (fun x => x = '/') = t := by
        cases t with
        | nil => rfl
        | cons d t' =>
          have hd : d ≠ '/' := by
            intro hEq
            exact htHead (by simp [hEq])
          simp [List.dropWhile_cons, hd]
      rw [List.dropWhile_cons]
      simp [hdrop]
    · have hLne : (c :: t).reverse.getLast? ≠ some '/' := by
        rw [List.getLast?_reverse]
        simp [hc]
      rw [if_neg hLne]
      simp only [dropTrailingSlashes, List.reverse_reverse]
      rw [List.dropWhile_cons]
      simp [hc]

theorem ep_slash_eq (ep : PyStr)
    (he : ep.head? = some '/' → ep.tail.head? ≠ some '/') :
    (if ep.head? = some '/' then ep else '/' :: ep) = '/' :: dropLeadingSlashes ep := by
  cases ep with
  | nil => simp [dropLeadingSlashes]
  | cons c t =>
    by_cases hc : c = '/'
    · subst hc
      rw [if_pos (by simp)]
      have ht : t.head? ≠ some '/' := by simpa using he (by simp)
      have hdrop : t.dropWhile (fun x => x = '/') = t := by
        cases t with
        | nil => rfl
        | cons d t' =>
          have hd : d ≠ '/' := by
            intro hEq
            exact ht (by simp [hEq])
          simp [List.dropWhile_cons, hd]
      simp only [dropLeadingSlashes]
      rw [List.dropWhile_cons]
      simp [hdrop]
    · rw [if_neg (by simp [hc])]
      simp only [dropLeadingSlashes]
      rw [List.dropWhile_cons]
      simp [hc]

/-- **C10 (amended).** Whenever the configured base URL does not already
end in a double slash and the endpoint (after model substitution) does not
already begin with one, `build_provider_url` joins them with exactly one
`/` at the boundary — independently of whether the base ends with `/` or
the endpoint starts with `/` — with every `\x7bmodel\x7d` token replaced
by the model id's trailing path segment. -/
theorem c10_single_slash_join (base endpoint model : PyStr)
    (hb : base.getLast? = some '/' → base.dropLast.getLast? ≠ some '/')
    (he : (substituted_endpoint endpoint model).head? = some '/' →
        (substituted_endpoint endpoint model).tail.head? ≠ some '/') :
    build_provider_url base endpoint model
      = claimedJoin base (substituted_endpoint endpoint model) := by
  simp only [build_provider_url, claimedJoin]
  rw [base_strip_eq base hb, ep_slash_eq _ he]

/-- Witness for C10 (amended): a base with one trailing slash and an
endpoint with one leading slash still join with a single slash. -/
theorem c10_single_slash_join_witness :
    build_provider_url "http://h/".data "/v1/chat".data "org/mod".data
      = claimedJoin "http://h/".data (substituted_endpoint "/v1/chat".data "org/mod".data) :=
  c10_single_slash_join "http://h/".data "/v1/chat".data "org/mod".data
    (by decide) (by decide)

end UDC
